import Mathlib

/-
Verification development for the rtfsig RTF fingerprinting tool.

This file gives a shallow embedding of `rtfsig/core.py` (the `RtfAnalyser`
class): byte decoding, the printable-range / magic-byte / version checks,
and the four regex-based extractors, each regex re-implemented as an
explicit left-to-right scanner with the same matching semantics as
the Python re module from `re` on the concrete patterns used by the source.
-/

set_option maxRecDepth 4000

namespace Rtfsig

/-- Observation identifiers, one per entry of the OBSERVATIONS catalogue in core.py. -/
inductive Obs where
  | obs001
  | obs002
  | obs003
  | obs004
  | obs005
  | obs006
  | obs007
deriving DecidableEq, Repr

/-- The OBSERVATIONS catalogue: description text for each observation identifier. -/
def OBSERVATIONS : Obs → String
  | .obs001 => "File contains bytes outside ASCII printable range"
  | .obs002 => "Non-standard RTF file marker found (expected \\rtf1)"
  | .obs003 => "Change identifier found which is not in the RSID table (document likely modified)"
  | .obs004 => "Document contains images with a fixed width/height"
  | .obs005 => "Document contains information group tags"
  | .obs006 => "Document contains image identifiers (bliptags)"
  | .obs007 => "Document contains change tracking (RSID tags)"

/-- The mutable findings aggregate `self.results` of `RtfAnalyser`:
`loose_strings` and `strict_strings` are Python sets (modelled as duplicate-free
insertion lists) and `observations` is an ordered list. -/
structure Results where
  loose_strings : List (List Char)
  strict_strings : List (List Char)
  observations : List Obs
deriving DecidableEq, Repr

/-- The empty findings aggregate created at the start of `__init__`. -/
def emptyResults : Results := ⟨[], [], []⟩

/-- Python `set.add`: insert unless already present. -/
def setAdd (l : List (List Char)) (s : List Char) : List (List Char) :=
  if s ∈ l then l else l ++ [s]

/-- Add a string to `loose_strings`. -/
def addLoose (r : Results) (s : List Char) : Results :=
  { r with loose_strings := setAdd r.loose_strings s }

/-- Add a string to `strict_strings`. -/
def addStrict (r : Results) (s : List Char) : Results :=
  { r with strict_strings := setAdd r.strict_strings s }

/-- Model of `RtfAnalyser._add_observation`: append an observation reference. -/
def add_observation (r : Results) (o : Obs) : Results :=
  { r with observations := r.observations ++ [o] }

/-- The backslash character. -/
def bslashC : Char := '\\'

/-- The opening brace character. -/
def lbraceC : Char := Char.ofNat 123

/-- The closing brace character. -/
def rbraceC : Char := Char.ofNat 125

/-- ASCII decimal digit, as matched by Python regex `\d` on ASCII text. -/
def isDigitC (c : Char) : Bool := 48 ≤ c.toNat && c.toNat ≤ 57

/-- Whitespace as matched by Python regex `\s` (and stripped by `str.strip`)
restricted to the ASCII range kept by `decode("ascii", "ignore")`:
tab through carriage return, the separator control characters 28-31, and space. -/
def isSpaceC (c : Char) : Bool :=
  (9 ≤ c.toNat && c.toNat ≤ 13) || (28 ≤ c.toNat && c.toNat ≤ 32)

/-- Lowercase hexadecimal character class `[a-f0-9]` of the blipuid pattern. -/
def isLowerHexC (c : Char) : Bool :=
  isDigitC c || (97 ≤ c.toNat && c.toNat ≤ 102)

/-- Membership of a byte value in the Python constant `string.printable`
(`chr(x) in string.printable` for a byte `x`): ASCII 32-126 plus the
whitespace characters 9-13. -/
def printableByte (b : Nat) : Bool :=
  (32 ≤ b && b ≤ 126) || (9 ≤ b && b ≤ 13)

/-- Model of `bytes.decode("ascii", "ignore")`: keep bytes below 128 as characters,
silently drop everything else. -/
def decodeAsciiIgnore (bs : List Nat) : List Char :=
  bs.filterMap (fun b => if b < 128 then some (Char.ofNat b) else none)

/-- Python `str.strip()`: remove leading and trailing whitespace. -/
def pyStrip (cs : List Char) : List Char :=
  ((cs.dropWhile isSpaceC).reverse.dropWhile isSpaceC).reverse

/-- Drop an expected literal from the head of the character list,
returning the remainder on success. -/
def dropPfx : List Char → List Char → Option (List Char)
  | [], cs => some cs
  | _ :: _, [] => none
  | p :: ps, c :: cs => if c = p then dropPfx ps cs else none

/-- Does the list start with the given literal? -/
def startsWithL : List Char → List Char → Bool
  | [], _ => true
  | _ :: _, [] => false
  | p :: ps, c :: cs => c = p && startsWithL ps cs

/-- Model of the Python substring operator `needle in haystack`. -/
def containsSub (n : List Char) : List Char → Bool
  | [] => startsWithL n []
  | c :: cs => startsWithL n (c :: cs) || containsSub n cs

/-- The literal `\*\rsidtbl` opening the revision-table pattern
`\\\*\\rsidtbl\s([^}]+)}`. -/
def rsidtblLit : List Char := ['\\', '*', '\\', 'r', 's', 'i', 'd', 't', 'b', 'l']

/-- Try to match the revision-table pattern `\\\*\\rsidtbl\s([^}]+)}` at the
head of the list, returning capture group 1 (the raw table payload). -/
def tryRsidTbl (cs : List Char) : Option (List Char) :=
  match dropPfx rsidtblLit cs with
  | none => none
  | some rest =>
    match rest with
    | [] => none
    | w :: rest2 =>
      if isSpaceC w then
        let body := rest2.takeWhile (fun c => c ≠ rbraceC)
        if body.isEmpty then none
        else
          match rest2.dropWhile (fun c => c ≠ rbraceC) with
          | [] => none
          | _ :: _ => some body
      else none

/-- Model of `re.search(r"\\\*\\rsidtbl\s([^}]+)}", text)`: leftmost match,
returning capture group 1. -/
def findRsidTable : List Char → Option (List Char)
  | [] => none
  | c :: cs =>
    match tryRsidTbl (c :: cs) with
    | some b => some b
    | none => findRsidTable cs

/-- Try to match `\\<marker>(\d+)` at the head of the list: a backslash, the
marker literal, then one or more digits (greedy).  Returns the digit group and
the remainder after the match. -/
def tryMarker (m : List Char) (cs : List Char) : Option (List Char × List Char) :=
  match cs with
  | [] => none
  | c :: rest =>
    if c = bslashC then
      match dropPfx m rest with
      | none => none
      | some rest2 =>
        let ds := rest2.takeWhile isDigitC
        if ds.isEmpty then none else some (ds, rest2.dropWhile isDigitC)
    else none

/-- Fuelled worker for `scanMarker`. -/
def scanMarkerAux (m : List Char) : Nat → List Char → List (List Char)
  | 0, _ => []
  | _ + 1, [] => []
  | fuel + 1, c :: cs =>
    match tryMarker m (c :: cs) with
    | some (ds, rest) => ds :: scanMarkerAux m fuel rest
    | none => scanMarkerAux m fuel cs

/-- Model of `re.finditer(r"\\<marker>(\d+)", text)`: all non-overlapping matches in
order, returning the digit group of each. -/
def scanMarker (m : List Char) (cs : List Char) : List (List Char) :=
  scanMarkerAux m cs.length cs

/-- The literal `rsid`, used both for the in-table scan and as stem of the
whole-tag strings it stores. -/
def rsidLit : List Char := ['r', 's', 'i', 'd']

/-- The seven change-marker control words scanned over the whole document. -/
def changeMarkers : List (List Char) :=
  [ ['i', 'n', 's', 'r', 's', 'i', 'd'],
    ['r', 's', 'i', 'd', 'r', 'o', 'o', 't'],
    ['d', 'e', 'l', 'r', 's', 'i', 'd'],
    ['c', 'h', 'a', 'r', 'r', 's', 'i', 'd'],
    ['s', 'e', 'c', 't', 'r', 's', 'i', 'd'],
    ['p', 'a', 'r', 'a', 'r', 's', 'i', 'd'],
    ['t', 'b', 'l', 'r', 's', 'i', 'd'] ]

/-- One iteration of the change-marker loop body of `_find_rsid_tags`: raise
Observation 3 when the id is not in the revision list, then store the
control-word-plus-id string. -/
def markerStep (rs : List (List Char)) (m : List Char) (acc : Results)
    (d : List Char) : Results :=
  addLoose (if d ∈ rs then acc else add_observation acc .obs003) (m ++ d)

/-- Model of `RtfAnalyser._find_rsid_tags`: locate the revision table, store its raw
payload and its `\rsid<N>` entries, then cross-reference the seven change
markers over the whole text against the table ids. -/
def find_rsid_tags (text : List Char) (r : Results) : Results :=
  match findRsidTable text with
  | none => r
  | some raw0 =>
    let r1 := add_observation r .obs007
    let raw := pyStrip raw0
    let r2 := addStrict r1 raw
    let rs := scanMarker rsidLit raw
    let r3 := rs.foldl (fun acc d => addLoose acc (bslashC :: (rsidLit ++ d))) r2
    changeMarkers.foldl
      (fun acc m => (scanMarker m text).foldl (markerStep rs m) acc) r3

/-- The literal `bliptag`. -/
def bliptagLit : List Char := ['b', 'l', 'i', 'p', 't', 'a', 'g']

/-- Try to match `\\(bliptag-?\d+)` at the head of the list, returning the
whole-tag group (without the backslash) and the remainder. -/
def tryBliptag (cs : List Char) : Option (List Char × List Char) :=
  match cs with
  | [] => none
  | c :: rest =>
    if c = bslashC then
      match dropPfx bliptagLit rest with
      | none => none
      | some rest2 =>
        match rest2 with
        | [] => none
        | m :: rest3 =>
          if m = '-' then
            let ds := rest3.takeWhile isDigitC
            if ds.isEmpty then none
            else some (bliptagLit ++ '-' :: ds, rest3.dropWhile isDigitC)
          else
            let ds := rest2.takeWhile isDigitC
            if ds.isEmpty then none
            else some (bliptagLit ++ ds, rest2.dropWhile isDigitC)
    else none

/-- Fuelled worker for `scanBliptag`. -/
def scanBliptagAux : Nat → List Char → List (List Char)
  | 0, _ => []
  | _ + 1, [] => []
  | fuel + 1, c :: cs =>
    match tryBliptag (c :: cs) with
    | some (m, rest) => m :: scanBliptagAux fuel rest
    | none => scanBliptagAux fuel cs

/-- Model of `re.finditer(r"\\(?P<whole_tag>bliptag-?\d+)", text)`: the whole-tag group
of every non-overlapping match, in order. -/
def scanBliptag (cs : List Char) : List (List Char) :=
  scanBliptagAux cs.length cs

/-- The literal `blipuid`. -/
def blipuidLit : List Char := ['b', 'l', 'i', 'p', 'u', 'i', 'd']

/-- Try to match `\\(blipuid\s+([a-f0-9]+))` at the head of the list,
returning the whole-tag group, the unique-id group, and the remainder. -/
def tryBlipuid (cs : List Char) : Option ((List Char × List Char) × List Char) :=
  match cs with
  | [] => none
  | c :: rest =>
    if c = bslashC then
      match dropPfx blipuidLit rest with
      | none => none
      | some rest2 =>
        let ws := rest2.takeWhile isSpaceC
        if ws.isEmpty then none
        else
          let rest3 := rest2.dropWhile isSpaceC
          let hx := rest3.takeWhile isLowerHexC
          if hx.isEmpty then none
          else some ((blipuidLit ++ ws ++ hx, hx), rest3.dropWhile isLowerHexC)
    else none

/-- Fuelled worker for `scanBlipuid`. -/
def scanBlipuidAux : Nat → List Char → List (List Char × List Char)
  | 0, _ => []
  | _ + 1, [] => []
  | fuel + 1, c :: cs =>
    match tryBlipuid (c :: cs) with
    | some (p, rest) => p :: scanBlipuidAux fuel rest
    | none => scanBlipuidAux fuel cs

/-- Model of `re.finditer(r"\\(?P<whole_tag>blipuid\s+(?P<unique_id>[a-f0-9]+))", text)`:
the (whole-tag, unique-id) groups of every non-overlapping match, in order. -/
def scanBlipuid (cs : List Char) : List (List Char × List Char) :=
  scanBlipuidAux cs.length cs

/-- Model of `RtfAnalyser._find_blip_tags`: the `bliptag` sub-scan (gated on a substring
pre-check, storing whole tags and raising Observation 6 when matches exist)
followed by the `blipuid` sub-scan (storing the bare id loosely and the whole
tag strictly, raising no observation). -/
def find_blip_tags (text : List Char) (r : Results) : Results :=
  let r1 :=
    if containsSub bliptagLit text then
      let ms := scanBliptag text
      let r' := ms.foldl (fun acc m => addLoose acc m) r
      if ms = [] then r' else add_observation r' .obs006
    else r
  if containsSub blipuidLit text then
    (scanBlipuid text).foldl
      (fun acc p => addStrict (addLoose acc p.2) p.1) r1
  else r1

/-- The four image-size control words, in the alternation order of the pattern
`(?:\\(?:picw|pich|picwgoal|pichgoal)\d+\s*)+`. -/
def imgTags : List (List Char) :=
  [ ['p', 'i', 'c', 'w'],
    ['p', 'i', 'c', 'h'],
    ['p', 'i', 'c', 'w', 'g', 'o', 'a', 'l'],
    ['p', 'i', 'c', 'h', 'g', 'o', 'a', 'l'] ]

/-- Resolve the alternation `picw|pich|picwgoal|pichgoal` followed by a
mandatory digit: the first alternative that matches and is followed by a digit
wins (exactly the backtracking behaviour of the Python pattern, where the
alternatives are not prefixes of one another once the digit requirement is
taken into account). -/
def tryAlt : List (List Char) → List Char → Option (List Char × List Char)
  | [], _ => none
  | t :: ts, cs =>
    match dropPfx t cs with
    | some rest =>
      match rest with
      | d :: _ => if isDigitC d then some (t, rest) else tryAlt ts cs
      | [] => tryAlt ts cs
    | none => tryAlt ts cs

/-- Try to match one unit `\\(?:picw|pich|picwgoal|pichgoal)\d+\s*` at the
head of the list, returning the consumed text and the remainder. -/
def tryImgUnit (cs : List Char) : Option (List Char × List Char) :=
  match cs with
  | [] => none
  | c :: rest =>
    if c = bslashC then
      match tryAlt imgTags rest with
      | none => none
      | some (t, rest2) =>
        let ds := rest2.takeWhile isDigitC
        let rest3 := rest2.dropWhile isDigitC
        let ws := rest3.takeWhile isSpaceC
        some (bslashC :: (t ++ ds ++ ws), rest3.dropWhile isSpaceC)
    else none

/-- Greedily extend a run of image-size units (the `+` of the pattern),
returning the concatenated consumed text and the remainder. -/
def imgRunAux : Nat → List Char → List Char × List Char
  | 0, cs => ([], cs)
  | fuel + 1, cs =>
    match tryImgUnit cs with
    | none => ([], cs)
    | some (u, rest) =>
      let p := imgRunAux fuel rest
      (u ++ p.1, p.2)

/-- Fuelled worker for `scanImg`. -/
def scanImgAux : Nat → List Char → List (List Char)
  | 0, _ => []
  | _ + 1, [] => []
  | fuel + 1, c :: cs =>
    match tryImgUnit (c :: cs) with
    | none => scanImgAux fuel cs
    | some (u, rest) =>
      let p := imgRunAux rest.length rest
      (u ++ p.1) :: scanImgAux fuel p.2

/-- Model of `re.finditer(r"(?P<longest_match>(?:\\(?:picw|pich|picwgoal|pichgoal)\d+\s*)+)", text)`:
the full greedy (longest) match at each position, non-overlapping, in order. -/
def scanImg (cs : List Char) : List (List Char) :=
  scanImgAux cs.length cs

/-- Model of `RtfAnalyser._find_image_sizes`: store each greedy run stripped of
whitespace, raising Observation 4 once when any run was found. -/
def find_image_sizes (text : List Char) (r : Results) : Results :=
  let ms := scanImg text
  let r' := ms.foldl (fun acc m => addLoose acc (pyStrip m)) r
  if ms = [] then r' else add_observation r' .obs004

/-- The eleven information-group tag names, in the alternation order of
`_find_information_group`. -/
def infoTags : List (List Char) :=
  [ ['t', 'i', 't', 'l', 'e'],
    ['s', 'u', 'b', 'j', 'e', 'c', 't'],
    ['a', 'u', 't', 'h', 'o', 'r'],
    ['m', 'a', 'n', 'a', 'g', 'e', 'r'],
    ['c', 'a', 't', 'e', 'g', 'o', 'r', 'y'],
    ['k', 'e', 'y', 'w', 'o', 'r', 'd', 's'],
    ['o', 'p', 'e', 'r', 'a', 't', 'o', 'r'],
    ['c', 'o', 'm', 'p', 'a', 'n', 'y'],
    ['c', 'r', 'e', 'a', 't', 'i', 'm'],
    ['r', 'e', 'v', 't', 'i', 'm'],
    ['d', 'o', 'c', 'c', 'o', 'm', 'm'] ]

/-- Resolve the information-tag alternation: the tag names are pairwise
non-prefix, so at most one alternative can match at a given position. -/
def tryInfoTag : List (List Char) → List Char → Option (List Char × List Char)
  | [], _ => none
  | t :: ts, cs =>
    match dropPfx t cs with
    | some rest => some (t, rest)
    | none => tryInfoTag ts cs

/-- Try to match `{\s*\\(?:<tags>)\s+([^}]+)\s*}` at the head of the list,
returning the whole-tag group (the entire brace-delimited group) and the
remainder.  After the tag name the pattern `\s+([^}]+)\s*}` matches exactly
when the next character is whitespace and at least two characters stand
between the tag name and the next closing brace (backtracking lets `[^}]+`
absorb everything after a single mandatory whitespace character). -/
def tryInfo (cs : List Char) : Option (List Char × List Char) :=
  match cs with
  | [] => none
  | c :: rest =>
    if c = lbraceC then
      let ws0 := rest.takeWhile isSpaceC
      match rest.dropWhile isSpaceC with
      | [] => none
      | b :: rest2 =>
        if b = bslashC then
          match tryInfoTag infoTags rest2 with
          | none => none
          | some (t, rest3) =>
            match rest3 with
            | [] => none
            | w :: _ =>
              if isSpaceC w then
                let body := rest3.takeWhile (fun x => x ≠ rbraceC)
                match rest3.dropWhile (fun x => x ≠ rbraceC) with
                | [] => none
                | _ :: rest4 =>
                  if 2 ≤ body.length then
                    some (lbraceC :: (ws0 ++ bslashC :: (t ++ body ++ [rbraceC])), rest4)
                  else none
              else none
        else none
    else none

/-- Fuelled worker for `scanInfo`. -/
def scanInfoAux : Nat → List Char → List (List Char)
  | 0, _ => []
  | _ + 1, [] => []
  | fuel + 1, c :: cs =>
    match tryInfo (c :: cs) with
    | some (m, rest) => m :: scanInfoAux fuel rest
    | none => scanInfoAux fuel cs

/-- Model of `re.finditer(r"(?P<whole_tag>{\s*\\(?:<tags>)\s+([^}]+)\s*})", text)`:
the whole-tag group of every non-overlapping match, in order. -/
def scanInfo (cs : List Char) : List (List Char) :=
  scanInfoAux cs.length cs

/-- Model of `RtfAnalyser._find_information_group`: store every matched group in its
entirety, raising Observation 5 once when any match was found. -/
def find_information_group (text : List Char) (r : Results) : Results :=
  let ms := scanInfo text
  let r' := ms.foldl (fun acc m => addLoose acc m) r
  if ms = [] then r' else add_observation r' .obs005

/-- The four magic characters the decoded text must start with. -/
def rtfMagic : List Char := [lbraceC, '\\', 'r', 't']

/-- The expected version marker at characters 4-5 of the decoded text. -/
def versionTag : List Char := ['f', '1']

/-- The decoded text view `self._data` built by `_parse_data`. -/
def analysisText (data : List Nat) : List Char := decodeAsciiIgnore data

/-- Structural and construction-time errors of `RtfAnalyser`:
`invalidInput` is the ValueError for a missing input, `typeMismatch` the
TypeError for non-bytes data, `parsingErr` the ParsingException for failed
magic-byte validation. -/
inductive RtfErr where
  | invalidInput
  | typeMismatch
  | parsingErr
deriving DecidableEq, Repr

/-- The findings after the printable-range check of `_parse_data`:
Observation 1 when any byte falls outside `string.printable`. -/
def obs1Base (data : List Nat) : Results :=
  if data.any (fun b => !printableByte b) then add_observation emptyResults .obs001
  else emptyResults

/-- The findings after the version-marker check of `_parse_data`:
Observation 2 when characters 4-5 of the decoded text differ from `f1`. -/
def obs2Base (data : List Nat) : Results :=
  if ((analysisText data).drop 4).take 2 ≠ versionTag then
    add_observation (obs1Base data) .obs002
  else obs1Base data

/-- The findings produced by running the four extractors of `_parse_data`
in source order over the decoded text (`_find_information_group` only when
risky items are enabled). -/
def pipelineResult (data : List Nat) (risky : Bool) : Results :=
  let text := analysisText data
  let r5 := find_image_sizes text (find_blip_tags text (find_rsid_tags text (obs2Base data)))
  if risky then find_information_group text r5 else r5

/-- Model of `RtfAnalyser._parse_data`: printable-range check, ASCII decode, magic-byte
validation (raising ParsingException on failure), version-marker check, then
the four extractors. -/
def parse_data (data : List Nat) (risky : Bool) : Except RtfErr Results :=
  if (analysisText data).take 4 = rtfMagic then .ok (pipelineResult data risky)
  else .error .parsingErr

/-- A Python value passed as the `data` argument of `RtfAnalyser.__init__`:
either a `bytes` object or a `bytearray` (the annotated type, which is not
an instance of `bytes`). -/
inductive PyData where
  | pybytes (b : List Nat)
  | pybytearray (b : List Nat)
deriving DecidableEq, Repr

/-- Python truthiness of a byte buffer: non-empty. -/
def pyTruthy : PyData → Bool
  | .pybytes b => !b.isEmpty
  | .pybytearray b => !b.isEmpty

/-- Model of `isinstance(data, bytes)`. -/
def isBytesInstance : PyData → Bool
  | .pybytes _ => true
  | .pybytearray _ => false

/-- The raw byte list of a buffer. -/
def pyBytesOf : PyData → List Nat
  | .pybytes b => b
  | .pybytearray b => b

/-- Python truthiness of the optional `filename` argument: a non-empty string. -/
def fnTruthy : Option String → Bool
  | some f => f ≠ ""
  | none => false

/-- Model of `RtfAnalyser.__init__`: reject when neither filename nor data was given;
parse the file when the filename is truthy (reading through `readFile`);
otherwise, when the data is truthy, require it to be `bytes` and parse it;
a falsy (empty) buffer performs no parsing at all and keeps the empty results. -/
def init (filename : Option String) (data : Option PyData) (risky : Bool)
    (readFile : String → List Nat) : Except RtfErr Results :=
  if filename = none ∧ data = none then .error .invalidInput
  else if fnTruthy filename then parse_data (readFile (filename.getD "")) risky
  else
    match data with
    | some d =>
      if pyTruthy d then
        if isBytesInstance d then parse_data (pyBytesOf d) risky
        else .error .typeMismatch
      else .ok emptyResults
    | none => .ok emptyResults

/-- Number of occurrences of an observation in an observation list. -/
def countObs (o : Obs) : List Obs → Nat
  | [] => 0
  | x :: xs => (if x = o then 1 else 0) + countObs o xs

theorem countObs_append (o : Obs) (l1 l2 : List Obs) :
    countObs o (l1 ++ l2) = countObs o l1 + countObs o l2 := by
  induction l1 with
  | nil => simp [countObs]
  | cons x xs ih => simp [countObs, ih, Nat.add_assoc]

theorem countObs_replicate (o p : Obs) (n : Nat) :
    countObs o (List.replicate n p) = if p = o then n else 0 := by
  induction n with
  | zero => simp [countObs]
  | succ n ih =>
    rw [List.replicate_succ]
    simp only [countObs, ih]
    by_cases h : p = o <;> simp [h, Nat.add_comm]

theorem countObs_eq_zero_iff (o : Obs) (l : List Obs) :
    countObs o l = 0 ↔ o ∉ l := by
  induction l with
  | nil => simp [countObs]
  | cons x xs ih =>
    simp only [countObs, List.mem_cons]
    by_cases h : x = o
    · subst h; simp
    · have hxo : ¬o = x := fun hc => h hc.symm
      simp [h, ih, hxo]

theorem mem_setAdd_self (l : List (List Char)) (s : List Char) : s ∈ setAdd l s := by
  unfold setAdd
  by_cases h : s ∈ l <;> simp [h]

theorem setAdd_subset (l : List (List Char)) (s : List Char) : l ⊆ setAdd l s := by
  unfold setAdd
  by_cases h : s ∈ l <;> simp [h]

theorem addLoose_observations (r : Results) (s : List Char) :
    (addLoose r s).observations = r.observations := rfl

theorem addStrict_observations (r : Results) (s : List Char) :
    (addStrict r s).observations = r.observations := rfl

theorem add_observation_observations (r : Results) (o : Obs) :
    (add_observation r o).observations = r.observations ++ [o] := rfl

theorem addLoose_mem (r : Results) (s : List Char) : s ∈ (addLoose r s).loose_strings :=
  mem_setAdd_self _ _

theorem addStrict_mem (r : Results) (s : List Char) : s ∈ (addStrict r s).strict_strings :=
  mem_setAdd_self _ _

theorem addLoose_loose_subset (r : Results) (s : List Char) :
    r.loose_strings ⊆ (addLoose r s).loose_strings := setAdd_subset _ _

theorem addStrict_strict_subset (r : Results) (s : List Char) :
    r.strict_strings ⊆ (addStrict r s).strict_strings := setAdd_subset _ _

theorem foldl_obs_const {α : Type} (f : Results → α → Results)
    (hf : ∀ acc x, (f acc x).observations = acc.observations) :
    ∀ (xs : List α) (r : Results), (xs.foldl f r).observations = r.observations := by
  intro xs
  induction xs with
  | nil => intro r; rfl
  | cons x xs ih => intro r; rw [List.foldl_cons, ih, hf]

theorem foldl_loose_subset {α : Type} (f : Results → α → Results)
    (hf : ∀ acc x, acc.loose_strings ⊆ (f acc x).loose_strings) :
    ∀ (xs : List α) (r : Results), r.loose_strings ⊆ (xs.foldl f r).loose_strings := by
  intro xs
  induction xs with
  | nil => intro r; exact fun a ha => ha
  | cons x xs ih => intro r; exact fun a ha => ih (f r x) (hf r x ha)

theorem foldl_strict_subset {α : Type} (f : Results → α → Results)
    (hf : ∀ acc x, acc.strict_strings ⊆ (f acc x).strict_strings) :
    ∀ (xs : List α) (r : Results), r.strict_strings ⊆ (xs.foldl f r).strict_strings := by
  intro xs
  induction xs with
  | nil => intro r; exact fun a ha => ha
  | cons x xs ih => intro r; exact fun a ha => ih (f r x) (hf r x ha)

theorem foldl_loose_adds {α : Type} (f : Results → α → Results) (g : α → List Char)
    (hmono : ∀ acc x, acc.loose_strings ⊆ (f acc x).loose_strings)
    (hadd : ∀ acc x, g x ∈ (f acc x).loose_strings) :
    ∀ (xs : List α) (r : Results) (x : α), x ∈ xs → g x ∈ (xs.foldl f r).loose_strings := by
  intro xs
  induction xs with
  | nil => intro r x hx; cases hx
  | cons y ys ih =>
    intro r x hx
    rw [List.foldl_cons]
    rcases List.mem_cons.mp hx with rfl | hx
    · exact foldl_loose_subset f hmono ys (f r x) (hadd r x)
    · exact ih (f r y) x hx

theorem foldl_strict_adds {α : Type} (f : Results → α → Results) (g : α → List Char)
    (hmono : ∀ acc x, acc.strict_strings ⊆ (f acc x).strict_strings)
    (hadd : ∀ acc x, g x ∈ (f acc x).strict_strings) :
    ∀ (xs : List α) (r : Results) (x : α), x ∈ xs → g x ∈ (xs.foldl f r).strict_strings := by
  intro xs
  induction xs with
  | nil => intro r x hx; cases hx
  | cons y ys ih =>
    intro r x hx
    rw [List.foldl_cons]
    rcases List.mem_cons.mp hx with rfl | hx
    · exact foldl_strict_subset f hmono ys (f r x) (hadd r x)
    · exact ih (f r y) x hx

theorem startsWithL_of_dropPfx {p : List Char} :
    ∀ {cs r : List Char}, dropPfx p cs = some r → startsWithL p cs = true := by
  induction p with
  | nil => intro cs r _; rfl
  | cons x xs ih =>
    intro cs r h
    cases cs with
    | nil => simp [dropPfx] at h
    | cons c cs =>
      simp only [dropPfx] at h
      by_cases hc : c = x
      · subst hc
        rw [if_pos rfl] at h
        simp [startsWithL, ih h]
      · simp [hc] at h

theorem containsSub_of_startsWithL {n cs : List Char}
    (h : startsWithL n cs = true) : containsSub n cs = true := by
  cases cs with
  | nil => exact h
  | cons c cs => simp [containsSub, h]

theorem containsSub_cons {n cs : List Char} (c : Char)
    (h : containsSub n cs = true) : containsSub n (c :: cs) = true := by
  simp [containsSub, h]

theorem scanBliptagAux_containsSub :
    ∀ (fuel : Nat) (cs : List Char), scanBliptagAux fuel cs ≠ [] →
      containsSub bliptagLit cs = true := by
  intro fuel
  induction fuel with
  | zero => intro cs h; exact absurd rfl h
  | succ fuel ih =>
    intro cs h
    cases cs with
    | nil => exact absurd rfl h
    | cons c cs =>
      rcases htry : tryBliptag (c :: cs) with _ | ⟨m, rest⟩
      · rw [scanBliptagAux, htry] at h
        exact containsSub_cons c (ih cs h)
      · have hbl : startsWithL bliptagLit cs = true := by
          simp only [tryBliptag] at htry
          by_cases hc : c = bslashC
          · rw [if_pos hc] at htry
            rcases hd : dropPfx bliptagLit cs with _ | rest2
            · rw [hd] at htry; cases htry
            · exact startsWithL_of_dropPfx hd
          · rw [if_neg hc] at htry; cases htry
        exact containsSub_cons c (containsSub_of_startsWithL hbl)

theorem scanBliptag_containsSub {cs : List Char} (h : scanBliptag cs ≠ []) :
    containsSub bliptagLit cs = true :=
  scanBliptagAux_containsSub cs.length cs h

theorem scanBlipuidAux_containsSub :
    ∀ (fuel : Nat) (cs : List Char), scanBlipuidAux fuel cs ≠ [] →
      containsSub blipuidLit cs = true := by
  intro fuel
  induction fuel with
  | zero => intro cs h; exact absurd rfl h
  | succ fuel ih =>
    intro cs h
    cases cs with
    | nil => exact absurd rfl h
    | cons c cs =>
      rcases htry : tryBlipuid (c :: cs) with _ | ⟨p, rest⟩
      · rw [scanBlipuidAux, htry] at h
        exact containsSub_cons c (ih cs h)
      · have hbl : startsWithL blipuidLit cs = true := by
          simp only [tryBlipuid] at htry
          by_cases hc : c = bslashC
          · rw [if_pos hc] at htry
            rcases hd : dropPfx blipuidLit cs with _ | rest2
            · rw [hd] at htry; cases htry
            · exact startsWithL_of_dropPfx hd
          · rw [if_neg hc] at htry; cases htry
        exact containsSub_cons c (containsSub_of_startsWithL hbl)

theorem scanBlipuid_containsSub {cs : List Char} (h : scanBlipuid cs ≠ []) :
    containsSub blipuidLit cs = true :=
  scanBlipuidAux_containsSub cs.length cs h

theorem markerStep_obs (rs : List (List Char)) (m : List Char) (acc : Results)
    (d : List Char) :
    (markerStep rs m acc d).observations
      = acc.observations ++ (if d ∈ rs then [] else [Obs.obs003]) := by
  unfold markerStep
  by_cases h : d ∈ rs <;> simp [h, addLoose, add_observation]

theorem markerFold_obs (rs : List (List Char)) (m : List Char) :
    ∀ (ds : List (List Char)) (r : Results),
      (ds.foldl (markerStep rs m) r).observations
        = r.observations
          ++ List.replicate (ds.countP (fun d => !decide (d ∈ rs))) Obs.obs003 := by
  intro ds
  induction ds with
  | nil => intro r; simp
  | cons d ds ih =>
    intro r
    rw [List.foldl_cons, ih, markerStep_obs]
    by_cases h : d ∈ rs
    · simp [h, List.countP_cons]
    · rw [if_neg h, List.append_assoc, List.singleton_append, ← List.replicate_succ]
      simp [List.countP_cons, h]

/-- The observations appended by `_find_rsid_tags`: Observation 7 when the
revision table is present, then one Observation 3 per change-marker occurrence
whose id is missing from the table. -/
def offendingCount (text raw0 : List Char) : Nat :=
  (changeMarkers.map
    (fun m => (scanMarker m text).countP
      (fun d => !decide (d ∈ scanMarker rsidLit (pyStrip raw0))))).sum

theorem markersFold_obs (rs : List (List Char)) (text : List Char) :
    ∀ (ms : List (List Char)) (r : Results),
      (ms.foldl (fun acc m => (scanMarker m text).foldl (markerStep rs m) acc) r).observations
        = r.observations
          ++ List.replicate
              ((ms.map (fun m => (scanMarker m text).countP (fun d => !decide (d ∈ rs)))).sum)
              Obs.obs003 := by
  intro ms
  induction ms with
  | nil => intro r; simp
  | cons m ms ih =>
    intro r
    rw [List.foldl_cons, ih, markerFold_obs]
    rw [List.map_cons, List.sum_cons, List.replicate_add, List.append_assoc]

/-- The observation list appended to the findings by `_find_rsid_tags`. -/
def rsid_obs_delta (text : List Char) : List Obs :=
  match findRsidTable text with
  | none => []
  | some raw0 => Obs.obs007 :: List.replicate (offendingCount text raw0) Obs.obs003

theorem find_rsid_tags_obs (text : List Char) (r : Results) :
    (find_rsid_tags text r).observations = r.observations ++ rsid_obs_delta text := by
  unfold find_rsid_tags rsid_obs_delta
  cases h : findRsidTable text with
  | none => simp
  | some raw0 =>
    rw [markersFold_obs,
      foldl_obs_const (fun acc d => addLoose acc (bslashC :: (rsidLit ++ d)))
        (fun acc d => rfl),
      addStrict_observations, add_observation_observations]
    simp only [offendingCount]
    rw [List.append_assoc, List.singleton_append]

/-- The observation list appended to the findings by `_find_blip_tags`. -/
def blip_obs_delta (text : List Char) : List Obs :=
  if containsSub bliptagLit text then
    (if scanBliptag text = [] then [] else [Obs.obs006])
  else []

theorem find_blip_tags_obs (text : List Char) (r : Results) :
    (find_blip_tags text r).observations = r.observations ++ blip_obs_delta text := by
  unfold find_blip_tags blip_obs_delta
  have huid : ∀ r' : Results,
      (if containsSub blipuidLit text then
        (scanBlipuid text).foldl (fun acc p => addStrict (addLoose acc p.2) p.1) r'
       else r').observations = r'.observations := by
    intro r'
    by_cases h2 : containsSub blipuidLit text
    · rw [if_pos h2,
        foldl_obs_const
          (fun (acc : Results) (p : List Char × List Char) => addStrict (addLoose acc p.2) p.1)
          (fun acc p => rfl)]
    · rw [if_neg h2]
  rw [huid]
  by_cases h1 : containsSub bliptagLit text
  · rw [if_pos h1, if_pos h1]
    by_cases h3 : scanBliptag text = []
    · rw [if_pos h3, if_pos h3,
        foldl_obs_const (fun acc m => addLoose acc m) (fun acc m => rfl), List.append_nil]
    · rw [if_neg h3, if_neg h3, add_observation_observations,
        foldl_obs_const (fun acc m => addLoose acc m) (fun acc m => rfl)]
  · rw [if_neg h1, if_neg h1, List.append_nil]

/-- The observation list appended to the findings by `_find_image_sizes`. -/
def img_obs_delta (text : List Char) : List Obs :=
  if scanImg text = [] then [] else [Obs.obs004]

theorem find_image_sizes_obs (text : List Char) (r : Results) :
    (find_image_sizes text r).observations = r.observations ++ img_obs_delta text := by
  unfold find_image_sizes img_obs_delta
  by_cases h : scanImg text = []
  · rw [if_pos h, if_pos h,
      foldl_obs_const (fun acc m => addLoose acc (pyStrip m)) (fun acc m => rfl),
      List.append_nil]
  · rw [if_neg h, if_neg h, add_observation_observations,
      foldl_obs_const (fun acc m => addLoose acc (pyStrip m)) (fun acc m => rfl)]

/-- The observation list appended to the findings by `_find_information_group`. -/
def info_obs_delta (text : List Char) : List Obs :=
  if scanInfo text = [] then [] else [Obs.obs005]

theorem find_information_group_obs (text : List Char) (r : Results) :
    (find_information_group text r).observations = r.observations ++ info_obs_delta text := by
  unfold find_information_group info_obs_delta
  by_cases h : scanInfo text = []
  · rw [if_pos h, if_pos h,
      foldl_obs_const (fun acc m => addLoose acc m) (fun acc m => rfl), List.append_nil]
  · rw [if_neg h, if_neg h, add_observation_observations,
      foldl_obs_const (fun acc m => addLoose acc m) (fun acc m => rfl)]

theorem markerStep_loose (rs : List (List Char)) (m : List Char) (acc : Results)
    (d : List Char) :
    (markerStep rs m acc d).loose_strings = setAdd acc.loose_strings (m ++ d) := by
  unfold markerStep
  by_cases h : d ∈ rs <;> simp [h, addLoose, add_observation]

theorem markerStep_strict (rs : List (List Char)) (m : List Char) (acc : Results)
    (d : List Char) :
    (markerStep rs m acc d).strict_strings = acc.strict_strings := by
  unfold markerStep
  by_cases h : d ∈ rs <;> simp [h, addLoose, add_observation]

theorem markerStep_loose_subset (rs : List (List Char)) (m : List Char) (acc : Results)
    (d : List Char) :
    acc.loose_strings ⊆ (markerStep rs m acc d).loose_strings := by
  rw [markerStep_loose]; exact setAdd_subset _ _

theorem markersFold_loose_subset (rs : List (List Char)) (text : List Char)
    (ms : List (List Char)) (r : Results) :
    r.loose_strings
      ⊆ (ms.foldl (fun acc m => (scanMarker m text).foldl (markerStep rs m) acc) r).loose_strings :=
  foldl_loose_subset _
    (fun acc m => foldl_loose_subset _ (markerStep_loose_subset rs m) _ acc) ms r

theorem markersFold_strict_subset (rs : List (List Char)) (text : List Char)
    (ms : List (List Char)) (r : Results) :
    r.strict_strings
      ⊆ (ms.foldl (fun acc m => (scanMarker m text).foldl (markerStep rs m) acc) r).strict_strings :=
  foldl_strict_subset _
    (fun acc m => foldl_strict_subset _
      (fun acc2 d => by rw [markerStep_strict]; exact fun a ha => ha) _ acc) ms r

theorem find_rsid_tags_loose_mono (text : List Char) (r : Results) :
    r.loose_strings ⊆ (find_rsid_tags text r).loose_strings := by
  unfold find_rsid_tags
  cases h : findRsidTable text with
  | none => exact fun a ha => ha
  | some raw0 =>
    dsimp only
    intro a ha
    apply markersFold_loose_subset
    exact foldl_loose_subset _ (fun acc d => addLoose_loose_subset acc _) _ _ ha

theorem find_rsid_tags_strict_mono (text : List Char) (r : Results) :
    r.strict_strings ⊆ (find_rsid_tags text r).strict_strings := by
  unfold find_rsid_tags
  cases h : findRsidTable text with
  | none => exact fun a ha => ha
  | some raw0 =>
    dsimp only
    intro a ha
    apply markersFold_strict_subset
    apply foldl_strict_subset _ (fun acc d => by exact fun b hb => hb)
    exact addStrict_strict_subset _ _ ha

theorem find_rsid_tags_table_mem (text : List Char) (r : Results) (raw0 : List Char)
    (h : findRsidTable text = some raw0) :
    pyStrip raw0 ∈ (find_rsid_tags text r).strict_strings := by
  unfold find_rsid_tags
  rw [h]
  dsimp only
  apply markersFold_strict_subset
  apply foldl_strict_subset _ (fun acc d => by exact fun b hb => hb)
  exact addStrict_mem _ _

theorem find_rsid_tags_rsid_mem (text : List Char) (r : Results) (raw0 : List Char)
    (h : findRsidTable text = some raw0) :
    ∀ d ∈ scanMarker rsidLit (pyStrip raw0),
      (bslashC :: (rsidLit ++ d)) ∈ (find_rsid_tags text r).loose_strings := by
  intro d hd
  unfold find_rsid_tags
  rw [h]
  dsimp only
  apply markersFold_loose_subset
  exact foldl_loose_adds (fun acc d => addLoose acc (bslashC :: (rsidLit ++ d)))
    (fun d => bslashC :: (rsidLit ++ d))
    (fun acc x => addLoose_loose_subset acc _)
    (fun acc x => addLoose_mem acc _) _ _ d hd

theorem blipuidStep_loose (acc : Results) (p : List Char × List Char) :
    (addStrict (addLoose acc p.2) p.1).loose_strings = setAdd acc.loose_strings p.2 := rfl

theorem blipuidStep_strict (acc : Results) (p : List Char × List Char) :
    (addStrict (addLoose acc p.2) p.1).strict_strings = setAdd acc.strict_strings p.1 := rfl

theorem find_blip_tags_loose_mono (text : List Char) (r : Results) :
    r.loose_strings ⊆ (find_blip_tags text r).loose_strings := by
  unfold find_blip_tags
  dsimp only
  intro a ha
  have h1 : a ∈ (if containsSub bliptagLit text then
      (if scanBliptag text = [] then
        (scanBliptag text).foldl (fun acc m => addLoose acc m) r
       else add_observation ((scanBliptag text).foldl (fun acc m => addLoose acc m) r) .obs006)
      else r).loose_strings := by
    by_cases h : containsSub bliptagLit text
    · rw [if_pos h]
      by_cases h3 : scanBliptag text = []
      · rw [if_pos h3]
        exact foldl_loose_subset _ (fun acc m => addLoose_loose_subset acc m) _ _ ha
      · rw [if_neg h3]
        exact foldl_loose_subset _ (fun acc m => addLoose_loose_subset acc m) _ _ ha
    · rw [if_neg h]; exact ha
  by_cases h2 : containsSub blipuidLit text
  · rw [if_pos h2]
    apply foldl_loose_subset _
      (fun acc p => by rw [blipuidStep_loose]; exact setAdd_subset _ _)
    exact h1
  · rw [if_neg h2]; exact h1

theorem find_blip_tags_strict_mono (text : List Char) (r : Results) :
    r.strict_strings ⊆ (find_blip_tags text r).strict_strings := by
  unfold find_blip_tags
  dsimp only
  intro a ha
  have h1 : a ∈ (if containsSub bliptagLit text then
      (if scanBliptag text = [] then
        (scanBliptag text).foldl (fun acc m => addLoose acc m) r
       else add_observation ((scanBliptag text).foldl (fun acc m => addLoose acc m) r) .obs006)
      else r).strict_strings := by
    by_cases h : containsSub bliptagLit text
    · rw [if_pos h]
      by_cases h3 : scanBliptag text = []
      · rw [if_pos h3]
        exact foldl_strict_subset (fun acc m => addLoose acc m)
          (fun acc m => fun b hb => hb) _ _ ha
      · rw [if_neg h3]
        exact foldl_strict_subset (fun acc m => addLoose acc m)
          (fun acc m => fun b hb => hb) _ _ ha
    · rw [if_neg h]; exact ha
  by_cases h2 : containsSub blipuidLit text
  · rw [if_pos h2]
    apply foldl_strict_subset _
      (fun acc p => by rw [blipuidStep_strict]; exact setAdd_subset _ _)
    exact h1
  · rw [if_neg h2]; exact h1

theorem find_blip_tags_bliptag_mem (text : List Char) (r : Results) :
    ∀ m ∈ scanBliptag text, m ∈ (find_blip_tags text r).loose_strings := by
  intro m hm
  have hne : scanBliptag text ≠ [] := by
    intro h0; rw [h0] at hm; cases hm
  have hgate := scanBliptag_containsSub hne
  unfold find_blip_tags
  dsimp only
  have h1 : m ∈ (if containsSub bliptagLit text then
      (if scanBliptag text = [] then
        (scanBliptag text).foldl (fun acc m => addLoose acc m) r
       else add_observation ((scanBliptag text).foldl (fun acc m => addLoose acc m) r) .obs006)
      else r).loose_strings := by
    rw [if_pos hgate, if_neg hne]
    exact foldl_loose_adds (fun acc m => addLoose acc m) (fun m => m)
      (fun acc x => addLoose_loose_subset acc x)
      (fun acc x => addLoose_mem acc x) _ _ m hm
  by_cases h2 : containsSub blipuidLit text
  · rw [if_pos h2]
    apply foldl_loose_subset _
      (fun acc p => by rw [blipuidStep_loose]; exact setAdd_subset _ _)
    exact h1
  · rw [if_neg h2]; exact h1

theorem find_blip_tags_blipuid_mem (text : List Char) (r : Results) :
    ∀ p ∈ scanBlipuid text,
      p.2 ∈ (find_blip_tags text r).loose_strings
      ∧ p.1 ∈ (find_blip_tags text r).strict_strings := by
  intro p hp
  have hne : scanBlipuid text ≠ [] := by
    intro h0; rw [h0] at hp; cases hp
  have hgate := scanBlipuid_containsSub hne
  unfold find_blip_tags
  dsimp only
  rw [if_pos hgate]
  constructor
  · exact foldl_loose_adds
      (fun (acc : Results) (p : List Char × List Char) => addStrict (addLoose acc p.2) p.1)
      (fun p => p.2)
      (fun acc x => by rw [blipuidStep_loose]; exact setAdd_subset _ _)
      (fun acc x => by rw [blipuidStep_loose]; exact mem_setAdd_self _ _) _ _ p hp
  · exact foldl_strict_adds
      (fun (acc : Results) (p : List Char × List Char) => addStrict (addLoose acc p.2) p.1)
      (fun p => p.1)
      (fun acc x => by rw [blipuidStep_strict]; exact setAdd_subset _ _)
      (fun acc x => by rw [blipuidStep_strict]; exact mem_setAdd_self _ _) _ _ p hp

theorem find_image_sizes_loose_mono (text : List Char) (r : Results) :
    r.loose_strings ⊆ (find_image_sizes text r).loose_strings := by
  unfold find_image_sizes
  dsimp only
  intro a ha
  by_cases h : scanImg text = []
  · rw [if_pos h]
    exact foldl_loose_subset _ (fun acc m => addLoose_loose_subset acc _) _ _ ha
  · rw [if_neg h]
    exact foldl_loose_subset _ (fun acc m => addLoose_loose_subset acc _) _ _ ha

theorem find_image_sizes_strict_mono (text : List Char) (r : Results) :
    r.strict_strings ⊆ (find_image_sizes text r).strict_strings := by
  unfold find_image_sizes
  dsimp only
  intro a ha
  by_cases h : scanImg text = []
  · rw [if_pos h]
    exact foldl_strict_subset (fun acc m => addLoose acc (pyStrip m))
      (fun acc m => fun b hb => hb) _ _ ha
  · rw [if_neg h]
    exact foldl_strict_subset (fun acc m => addLoose acc (pyStrip m))
      (fun acc m => fun b hb => hb) _ _ ha

theorem find_image_sizes_mem (text : List Char) (r : Results) :
    ∀ m ∈ scanImg text, pyStrip m ∈ (find_image_sizes text r).loose_strings := by
  intro m hm
  have hne : scanImg text ≠ [] := by
    intro h0; rw [h0] at hm; cases hm
  unfold find_image_sizes
  dsimp only
  rw [if_neg hne]
  exact foldl_loose_adds (fun acc m => addLoose acc (pyStrip m)) (fun m => pyStrip m)
    (fun acc x => addLoose_loose_subset acc _)
    (fun acc x => addLoose_mem acc _) _ _ m hm

theorem find_information_group_loose_mono (text : List Char) (r : Results) :
    r.loose_strings ⊆ (find_information_group text r).loose_strings := by
  unfold find_information_group
  dsimp only
  intro a ha
  by_cases h : scanInfo text = []
  · rw [if_pos h]
    exact foldl_loose_subset _ (fun acc m => addLoose_loose_subset acc _) _ _ ha
  · rw [if_neg h]
    exact foldl_loose_subset _ (fun acc m => addLoose_loose_subset acc _) _ _ ha

theorem find_information_group_strict_mono (text : List Char) (r : Results) :
    r.strict_strings ⊆ (find_information_group text r).strict_strings := by
  unfold find_information_group
  dsimp only
  intro a ha
  by_cases h : scanInfo text = []
  · rw [if_pos h]
    exact foldl_strict_subset (fun acc m => addLoose acc m)
      (fun acc m => fun b hb => hb) _ _ ha
  · rw [if_neg h]
    exact foldl_strict_subset (fun acc m => addLoose acc m)
      (fun acc m => fun b hb => hb) _ _ ha

theorem find_information_group_mem (text : List Char) (r : Results) :
    ∀ m ∈ scanInfo text, m ∈ (find_information_group text r).loose_strings := by
  intro m hm
  have hne : scanInfo text ≠ [] := by
    intro h0; rw [h0] at hm; cases hm
  unfold find_information_group
  dsimp only
  rw [if_neg hne]
  exact foldl_loose_adds (fun acc m => addLoose acc m) (fun m => m)
    (fun acc x => addLoose_loose_subset acc x)
    (fun acc x => addLoose_mem acc x) _ _ m hm

theorem obs2Base_obs (data : List Nat) :
    (obs2Base data).observations
      = (if data.any (fun b => !printableByte b) then [Obs.obs001] else [])
        ++ (if ((analysisText data).drop 4).take 2 ≠ versionTag then [Obs.obs002] else []) := by
  unfold obs2Base obs1Base
  by_cases h1 : data.any (fun b => !printableByte b) <;>
    by_cases h2 : ((analysisText data).drop 4).take 2 ≠ versionTag <;>
      simp [h1, h2, add_observation, emptyResults]

theorem obs2Base_loose (data : List Nat) : (obs2Base data).loose_strings = [] := by
  unfold obs2Base obs1Base
  by_cases h1 : data.any (fun b => !printableByte b) <;>
    by_cases h2 : ((analysisText data).drop 4).take 2 ≠ versionTag <;>
      simp [h1, h2, add_observation, emptyResults]

theorem obs2Base_strict (data : List Nat) : (obs2Base data).strict_strings = [] := by
  unfold obs2Base obs1Base
  by_cases h1 : data.any (fun b => !printableByte b) <;>
    by_cases h2 : ((analysisText data).drop 4).take 2 ≠ versionTag <;>
      simp [h1, h2, add_observation, emptyResults]

theorem countObs_obs2Base (data : List Nat) (o : Obs) (h1 : o ≠ Obs.obs001)
    (h2 : o ≠ Obs.obs002) : countObs o (obs2Base data).observations = 0 := by
  rw [obs2Base_obs, countObs_append]
  by_cases hc1 : data.any (fun b => !printableByte b) <;>
    by_cases hc2 : ((analysisText data).drop 4).take 2 ≠ versionTag <;>
      simp [hc1, hc2, countObs, Ne.symm h1, Ne.symm h2]

theorem countObs_rsid_delta_obs3 (text raw0 : List Char)
    (h : findRsidTable text = some raw0) :
    countObs Obs.obs003 (rsid_obs_delta text) = offendingCount text raw0 := by
  unfold rsid_obs_delta
  rw [h]
  simp [countObs, countObs_replicate]

theorem countObs_rsid_delta_obs7 (text raw0 : List Char)
    (h : findRsidTable text = some raw0) :
    countObs Obs.obs007 (rsid_obs_delta text) = 1 := by
  unfold rsid_obs_delta
  rw [h]
  simp [countObs, countObs_replicate]

theorem countObs_rsid_delta (text : List Char) (o : Obs) (h3 : o ≠ Obs.obs003)
    (h7 : o ≠ Obs.obs007) : countObs o (rsid_obs_delta text) = 0 := by
  unfold rsid_obs_delta
  cases htbl : findRsidTable text
  · simp [countObs]
  · simp [countObs, countObs_replicate, Ne.symm h3, Ne.symm h7]

theorem rsid_delta_none (text : List Char) (h : findRsidTable text = none) :
    rsid_obs_delta text = [] := by
  unfold rsid_obs_delta
  rw [h]

theorem countObs_blip_delta_obs6 (text : List Char) :
    countObs Obs.obs006 (blip_obs_delta text)
      = (if scanBliptag text = [] then 0 else 1) := by
  unfold blip_obs_delta
  by_cases h1 : containsSub bliptagLit text
  · rw [if_pos h1]
    by_cases h2 : scanBliptag text = [] <;> simp [h2, countObs]
  · rw [if_neg h1]
    have h2 : scanBliptag text = [] := by
      by_contra hne
      exact h1 (scanBliptag_containsSub hne)
    simp [h2, countObs]

theorem countObs_blip_delta (text : List Char) (o : Obs) (h6 : o ≠ Obs.obs006) :
    countObs o (blip_obs_delta text) = 0 := by
  unfold blip_obs_delta
  by_cases h1 : containsSub bliptagLit text <;>
    by_cases h2 : scanBliptag text = [] <;>
      simp [h1, h2, countObs, Ne.symm h6]

theorem countObs_img_delta_obs4 (text : List Char) :
    countObs Obs.obs004 (img_obs_delta text) = (if scanImg text = [] then 0 else 1) := by
  unfold img_obs_delta
  by_cases h : scanImg text = [] <;> simp [h, countObs]

theorem countObs_img_delta (text : List Char) (o : Obs) (h4 : o ≠ Obs.obs004) :
    countObs o (img_obs_delta text) = 0 := by
  unfold img_obs_delta
  by_cases h : scanImg text = [] <;> simp [h, countObs, Ne.symm h4]

theorem countObs_info_delta_obs5 (text : List Char) :
    countObs Obs.obs005 (info_obs_delta text) = (if scanInfo text = [] then 0 else 1) := by
  unfold info_obs_delta
  by_cases h : scanInfo text = [] <;> simp [h, countObs]

theorem countObs_info_delta (text : List Char) (o : Obs) (h5 : o ≠ Obs.obs005) :
    countObs o (info_obs_delta text) = 0 := by
  unfold info_obs_delta
  by_cases h : scanInfo text = [] <;> simp [h, countObs, Ne.symm h5]

theorem pipelineResult_obs (data : List Nat) (risky : Bool) :
    (pipelineResult data risky).observations
      = (obs2Base data).observations
        ++ rsid_obs_delta (analysisText data)
        ++ blip_obs_delta (analysisText data)
        ++ img_obs_delta (analysisText data)
        ++ (if risky then info_obs_delta (analysisText data) else []) := by
  cases risky
  · show (find_image_sizes _ _).observations = _
    rw [find_image_sizes_obs, find_blip_tags_obs, find_rsid_tags_obs]
    simp [List.append_assoc]
  · show (find_information_group _ _).observations = _
    rw [find_information_group_obs, find_image_sizes_obs, find_blip_tags_obs,
      find_rsid_tags_obs]
    simp [List.append_assoc]

theorem pipelineResult_loose_stage3 (data : List Nat) (risky : Bool) :
    (find_image_sizes (analysisText data)
      (find_blip_tags (analysisText data)
        (find_rsid_tags (analysisText data) (obs2Base data)))).loose_strings
      ⊆ (pipelineResult data risky).loose_strings := by
  cases risky
  · exact fun a ha => ha
  · exact find_information_group_loose_mono _ _

theorem pipelineResult_strict_stage3 (data : List Nat) (risky : Bool) :
    (find_image_sizes (analysisText data)
      (find_blip_tags (analysisText data)
        (find_rsid_tags (analysisText data) (obs2Base data)))).strict_strings
      ⊆ (pipelineResult data risky).strict_strings := by
  cases risky
  · exact fun a ha => ha
  · exact find_information_group_strict_mono _ _

theorem pipelineResult_loose_stage2 (data : List Nat) (risky : Bool) :
    (find_blip_tags (analysisText data)
      (find_rsid_tags (analysisText data) (obs2Base data))).loose_strings
      ⊆ (pipelineResult data risky).loose_strings :=
  fun _a ha => pipelineResult_loose_stage3 data risky (find_image_sizes_loose_mono _ _ ha)

theorem pipelineResult_strict_stage2 (data : List Nat) (risky : Bool) :
    (find_blip_tags (analysisText data)
      (find_rsid_tags (analysisText data) (obs2Base data))).strict_strings
      ⊆ (pipelineResult data risky).strict_strings :=
  fun _a ha => pipelineResult_strict_stage3 data risky (find_image_sizes_strict_mono _ _ ha)

theorem pipelineResult_loose_stage1 (data : List Nat) (risky : Bool) :
    (find_rsid_tags (analysisText data) (obs2Base data)).loose_strings
      ⊆ (pipelineResult data risky).loose_strings :=
  fun _a ha => pipelineResult_loose_stage2 data risky (find_blip_tags_loose_mono _ _ ha)

theorem pipelineResult_strict_stage1 (data : List Nat) (risky : Bool) :
    (find_rsid_tags (analysisText data) (obs2Base data)).strict_strings
      ⊆ (pipelineResult data risky).strict_strings :=
  fun _a ha => pipelineResult_strict_stage2 data risky (find_blip_tags_strict_mono _ _ ha)

theorem parse_data_ok_elim {data : List Nat} {risky : Bool} {r : Results}
    (h : parse_data data risky = .ok r) :
    (analysisText data).take 4 = rtfMagic ∧ r = pipelineResult data risky := by
  unfold parse_data at h
  by_cases hm : (analysisText data).take 4 = rtfMagic
  · rw [if_pos hm] at h
    injection h with h2
    exact ⟨hm, h2.symm⟩
  · rw [if_neg hm] at h
    cases h

theorem parse_data_magic_fail {data : List Nat} {risky : Bool}
    (h : (analysisText data).take 4 ≠ rtfMagic) :
    parse_data data risky = .error .parsingErr := by
  unfold parse_data
  rw [if_neg h]

/-- Convert an ASCII string to the byte list it denotes (for concrete inputs). -/
def strBytes (s : String) : List Nat := s.toList.map Char.toNat

/-- Specification scenario 3: a document with an information group. -/
def sample3 : List Nat :=
  strBytes "\x7b\\rtf1\x7d\x7b\\info\x7b\\title My first document\x7d\x7b\\author edeca\x7d\x7b\\operator Neo\x7d\x7d"

/-- Specification scenario 4: a document with a four-tag image-size run. -/
def sample4 : List Nat :=
  strBytes "\x7b\\rtf1\x7d\x7b\\pict\x7b\\*\\picprop\x7d\\wmetafile8\\picw10\\pich10\\picwgoal10\\pichgoal10 0011\x7d"

/-- Specification scenario 5: a document with bliptag and blipuid identifiers. -/
def sample5 : List Nat :=
  strBytes "\x7b\\rtf1\x7d\\bliptag-1234567890\\blipupi-111\x7b\\*\\blipuid 0011223344556677889900aabbccddeeff\x7d"

/-- Specification scenario 6: a revision table with ids 1234 and 5678 followed
by a change marker with the unknown id 9012. -/
def sample6 : List Nat :=
  strBytes "\x7b\\rtf1\x7d\x7b\\*\\rsidtbl \\rsid1234\\rsid5678\x7d\\pard \\pararsid9012"

/-- A magic-valid document with one unprintable byte. -/
def sample8 : List Nat := strBytes "\x7b\\rt" ++ [1]

/-- A magic-valid document whose version marker is not `f1`. -/
def sample9 : List Nat := strBytes "\x7b\\rtx\x7d"

/-- The analysis result of scenario 3. -/
def res3 : Results :=
  match parse_data sample3 true with
  | .ok r => r
  | .error _ => emptyResults

/-- The analysis result of scenario 4. -/
def res4 : Results :=
  match parse_data sample4 true with
  | .ok r => r
  | .error _ => emptyResults

/-- The analysis result of scenario 5. -/
def res5 : Results :=
  match parse_data sample5 true with
  | .ok r => r
  | .error _ => emptyResults

/-- The analysis result of scenario 6. -/
def res6 : Results :=
  match parse_data sample6 true with
  | .ok r => r
  | .error _ => emptyResults

/-- The analysis result of the unprintable-byte document. -/
def res8 : Results :=
  match parse_data sample8 true with
  | .ok r => r
  | .error _ => emptyResults

/-- The raw revision-table payload of scenario 6. -/
def raw6 : List Char := (findRsidTable (analysisText sample6)).getD []

/-- The single greedy image-size run of scenario 4 (with its trailing space). -/
def imgRun4 : List Char := "\\picw10\\pich10\\picwgoal10\\pichgoal10 ".toList

/-- Scenario 4 run trimmed of whitespace. -/
def imgRun4Trimmed : List Char := "\\picw10\\pich10\\picwgoal10\\pichgoal10".toList

/-- The author information group of scenario 3. -/
def authorGroup : List Char := "\x7b\\author edeca\x7d".toList

/-- The (whole-tag, unique-id) pair of the blipuid match of scenario 5. -/
def uidPair : List Char × List Char :=
  ("blipuid 0011223344556677889900aabbccddeeff".toList,
   "0011223344556677889900aabbccddeeff".toList)

/-- C1, counterexample: the empty byte input decodes to text that does not begin
with the RTF magic, yet constructing the analyser from it succeeds and hands the
caller an (empty) result instead of failing with a ParsingException, because the
empty buffer is falsy and `_parse_data` is never invoked. -/
theorem C1_counterexample :
    (decodeAsciiIgnore []).take 4 ≠ rtfMagic
    ∧ init none (some (.pybytes [])) true (fun _ => []) = .ok emptyResults := by
  constructor
  · decide
  · rfl

/-- C1, amended: for every NON-EMPTY byte input whose decoded ASCII text does not
begin with `{\rt`, analysis fails with the ParsingException: construction from
that data propagates the error and no result is produced, and `_parse_data`
itself fails before any extractor runs. -/
theorem C1_magic_rejects_nonempty (bs : List Nat) (risky : Bool)
    (readFile : String → List Nat) (h1 : bs ≠ [])
    (h2 : (decodeAsciiIgnore bs).take 4 ≠ rtfMagic) :
    init none (some (.pybytes bs)) risky readFile = .error .parsingErr
    ∧ parse_data bs risky = .error .parsingErr := by
  have hp : parse_data bs risky = .error .parsingErr := parse_data_magic_fail h2
  refine ⟨?_, hp⟩
  unfold init
  rw [if_neg (by simp), if_neg (by simp [fnTruthy])]
  show (if pyTruthy (.pybytes bs) = true then _ else _) = _
  rw [if_pos (by simp [pyTruthy, h1])]
  exact hp

/-- C1, witness for the amended theorem at the one-byte input 65. -/
theorem C1_witness :
    init none (some (.pybytes [65])) true (fun _ => []) = .error .parsingErr
    ∧ parse_data [65] true = .error .parsingErr :=
  C1_magic_rejects_nonempty [65] true (fun _ => []) (by decide) (by decide)

/-- C2: for every analysed document whose text contains the revision-table
declaration, Observation 3 is appended exactly once per occurrence (over the
whole text) of one of the seven change markers whose digit id is not among the
ids declared in the table, and when no such offending occurrence exists
Observation 3 is never raised. -/
theorem C2_marker_crosscheck (data : List Nat) (risky : Bool) (r : Results)
    (raw0 : List Char) (hok : parse_data data risky = .ok r)
    (htbl : findRsidTable (analysisText data) = some raw0) :
    countObs Obs.obs003 r.observations = offendingCount (analysisText data) raw0
    ∧ (offendingCount (analysisText data) raw0 = 0 → Obs.obs003 ∉ r.observations) := by
  obtain ⟨hm, rfl⟩ := parse_data_ok_elim hok
  have hcount : countObs Obs.obs003 (pipelineResult data risky).observations
      = offendingCount (analysisText data) raw0 := by
    rw [pipelineResult_obs, countObs_append, countObs_append, countObs_append,
      countObs_append, countObs_obs2Base data _ (by decide) (by decide),
      countObs_rsid_delta_obs3 _ _ htbl, countObs_blip_delta _ _ (by decide),
      countObs_img_delta _ _ (by decide)]
    have hrisky : countObs Obs.obs003
        (if risky then info_obs_delta (analysisText data) else []) = 0 := by
      cases risky
      · simp [countObs]
      · rw [if_pos rfl]
        exact countObs_info_delta _ _ (by decide)
    rw [hrisky]
    omega
  refine ⟨hcount, fun h0 => ?_⟩
  rw [← countObs_eq_zero_iff Obs.obs003, hcount, h0]

/-- C2, witness at scenario 6 (table ids 1234 and 5678, marker id 9012). -/
theorem C2_witness :
    countObs Obs.obs003 res6.observations = offendingCount (analysisText sample6) raw6 :=
  (C2_marker_crosscheck sample6 true res6 raw6 rfl rfl).1

/-- C3: when the revision-table declaration is present, Observation 7 is raised
exactly once, the stripped raw table payload is stored in strictStrings, and
each whole `\rsid<N>` control word of the payload is stored in looseStrings;
when the declaration is absent, neither Observation 7 nor Observation 3 is
raised (the cross-reference step is skipped) and analysis still succeeds. -/
theorem C3_rsid_table (data : List Nat) (risky : Bool) (r : Results)
    (hok : parse_data data risky = .ok r) :
    (∀ raw0, findRsidTable (analysisText data) = some raw0 →
      countObs Obs.obs007 r.observations = 1
      ∧ pyStrip raw0 ∈ r.strict_strings
      ∧ ∀ d ∈ scanMarker rsidLit (pyStrip raw0),
          (bslashC :: (rsidLit ++ d)) ∈ r.loose_strings)
    ∧ (findRsidTable (analysisText data) = none →
        Obs.obs007 ∉ r.observations ∧ Obs.obs003 ∉ r.observations) := by
  obtain ⟨hm, rfl⟩ := parse_data_ok_elim hok
  constructor
  · intro raw0 htbl
    refine ⟨?_, ?_, ?_⟩
    · rw [pipelineResult_obs, countObs_append, countObs_append, countObs_append,
        countObs_append, countObs_obs2Base data _ (by decide) (by decide),
        countObs_rsid_delta_obs7 _ _ htbl, countObs_blip_delta _ _ (by decide),
        countObs_img_delta _ _ (by decide)]
      have hrisky : countObs Obs.obs007
          (if risky then info_obs_delta (analysisText data) else []) = 0 := by
        cases risky
        · simp [countObs]
        · rw [if_pos rfl]
          exact countObs_info_delta _ _ (by decide)
      rw [hrisky]
    · exact pipelineResult_strict_stage1 data risky
        (find_rsid_tags_table_mem _ _ _ htbl)
    · intro d hd
      exact pipelineResult_loose_stage1 data risky
        (find_rsid_tags_rsid_mem _ _ _ htbl d hd)
  · intro hnone
    have hzero : ∀ o : Obs, o ≠ Obs.obs001 → o ≠ Obs.obs002 → o ≠ Obs.obs004 →
        o ≠ Obs.obs005 → o ≠ Obs.obs006 →
        countObs o (pipelineResult data risky).observations = 0 := by
      intro o ho1 ho2 ho4 ho5 ho6
      rw [pipelineResult_obs, countObs_append, countObs_append, countObs_append,
        countObs_append, countObs_obs2Base data _ ho1 ho2, rsid_delta_none _ hnone,
        countObs_blip_delta _ _ ho6, countObs_img_delta _ _ ho4]
      have hrisky : countObs o
          (if risky then info_obs_delta (analysisText data) else []) = 0 := by
        cases risky
        · simp [countObs]
        · rw [if_pos rfl]
          exact countObs_info_delta _ _ ho5
      rw [hrisky]
      simp [countObs]
    constructor
    · rw [← countObs_eq_zero_iff]
      exact hzero _ (by decide) (by decide) (by decide) (by decide) (by decide)
    · rw [← countObs_eq_zero_iff]
      exact hzero _ (by decide) (by decide) (by decide) (by decide) (by decide)

/-- C3, witness at scenario 6. -/
theorem C3_witness :
    countObs Obs.obs007 res6.observations = 1
    ∧ pyStrip raw6 ∈ res6.strict_strings :=
  ⟨((C3_rsid_table sample6 true res6 rfl).1 raw6 rfl).1,
   ((C3_rsid_table sample6 true res6 rfl).1 raw6 rfl).2.1⟩

/-- C4: every greedy (maximal) image-size run found by the scan contributes its
trimmed text to looseStrings, and Observation 4 is raised exactly once when at
least one run is found and never otherwise; concretely, the four adjacent tags
of scenario 4 form a single spanning match (one looseStrings entry, not four). -/
theorem C4_image_sizes (data : List Nat) (risky : Bool) (r : Results)
    (hok : parse_data data risky = .ok r) :
    countObs Obs.obs004 r.observations
        = (if scanImg (analysisText data) = [] then 0 else 1)
    ∧ (∀ m ∈ scanImg (analysisText data), pyStrip m ∈ r.loose_strings)
    ∧ scanImg (analysisText sample4) = [imgRun4]
    ∧ pyStrip imgRun4 = imgRun4Trimmed := by
  obtain ⟨hm, rfl⟩ := parse_data_ok_elim hok
  refine ⟨?_, ?_, by decide, by decide⟩
  · rw [pipelineResult_obs, countObs_append, countObs_append, countObs_append,
      countObs_append, countObs_obs2Base data _ (by decide) (by decide),
      countObs_rsid_delta _ _ (by decide) (by decide),
      countObs_blip_delta _ _ (by decide), countObs_img_delta_obs4]
    have hrisky : countObs Obs.obs004
        (if risky then info_obs_delta (analysisText data) else []) = 0 := by
      cases risky
      · simp [countObs]
      · rw [if_pos rfl]
        exact countObs_info_delta _ _ (by decide)
    rw [hrisky]
    omega
  · intro m hmem
    exact pipelineResult_loose_stage3 data risky (find_image_sizes_mem _ _ m hmem)

/-- C4, witness at scenario 4. -/
theorem C4_witness :
    countObs Obs.obs004 res4.observations
        = (if scanImg (analysisText sample4) = [] then 0 else 1)
    ∧ pyStrip imgRun4 ∈ res4.loose_strings :=
  ⟨(C4_image_sizes sample4 true res4 rfl).1,
   (C4_image_sizes sample4 true res4 rfl).2.1 imgRun4 (by decide)⟩

/-- C5: every `bliptag` match is stored in looseStrings and Observation 6 is
raised exactly once when at least one such match exists (never otherwise); every
`blipuid` match stores its bare hex id in looseStrings and its whole
control-word-plus-id text in strictStrings; and the whole `_find_blip_tags`
extractor only ever appends the bliptag delta, so the blipuid sub-scan raises no
observation. -/
theorem C5_blip_tags (data : List Nat) (risky : Bool) (r : Results)
    (hok : parse_data data risky = .ok r) :
    (∀ m ∈ scanBliptag (analysisText data), m ∈ r.loose_strings)
    ∧ countObs Obs.obs006 r.observations
        = (if scanBliptag (analysisText data) = [] then 0 else 1)
    ∧ (∀ p ∈ scanBlipuid (analysisText data),
        p.2 ∈ r.loose_strings ∧ p.1 ∈ r.strict_strings)
    ∧ (∀ r2 : Results, (find_blip_tags (analysisText data) r2).observations
        = r2.observations ++ blip_obs_delta (analysisText data)) := by
  obtain ⟨hm, rfl⟩ := parse_data_ok_elim hok
  refine ⟨?_, ?_, ?_, fun r2 => find_blip_tags_obs _ r2⟩
  · intro m hmem
    exact pipelineResult_loose_stage2 data risky
      (find_blip_tags_bliptag_mem _ _ m hmem)
  · rw [pipelineResult_obs, countObs_append, countObs_append, countObs_append,
      countObs_append, countObs_obs2Base data _ (by decide) (by decide),
      countObs_rsid_delta _ _ (by decide) (by decide), countObs_blip_delta_obs6,
      countObs_img_delta _ _ (by decide)]
    have hrisky : countObs Obs.obs006
        (if risky then info_obs_delta (analysisText data) else []) = 0 := by
      cases risky
      · simp [countObs]
      · rw [if_pos rfl]
        exact countObs_info_delta _ _ (by decide)
    rw [hrisky]
    omega
  · intro p hp
    have h := find_blip_tags_blipuid_mem (analysisText data)
      (find_rsid_tags (analysisText data) (obs2Base data)) p hp
    exact ⟨pipelineResult_loose_stage2 data risky h.1,
      pipelineResult_strict_stage2 data risky h.2⟩

/-- C5, witness at scenario 5. -/
theorem C5_witness :
    countObs Obs.obs006 res5.observations
        = (if scanBliptag (analysisText sample5) = [] then 0 else 1)
    ∧ ("bliptag-1234567890".toList) ∈ res5.loose_strings
    ∧ uidPair.2 ∈ res5.loose_strings ∧ uidPair.1 ∈ res5.strict_strings :=
  ⟨(C5_blip_tags sample5 true res5 rfl).2.1,
   (C5_blip_tags sample5 true res5 rfl).1 _ (by decide),
   (C5_blip_tags sample5 true res5 rfl).2.2.1 uidPair (by decide)⟩

/-- C6: with risky items enabled, every matched information group is stored in
its entirety (braces included) in looseStrings, and Observation 5 is raised
exactly once iff at least one group matches; concretely scenario 3 yields
Observation 5 and stores the whole group `{\author edeca}`. -/
theorem C6_information_group (data : List Nat) (r : Results)
    (hok : parse_data data true = .ok r) :
    (∀ m ∈ scanInfo (analysisText data), m ∈ r.loose_strings)
    ∧ countObs Obs.obs005 r.observations
        = (if scanInfo (analysisText data) = [] then 0 else 1)
    ∧ parse_data sample3 true = .ok res3
    ∧ Obs.obs005 ∈ res3.observations
    ∧ authorGroup ∈ res3.loose_strings := by
  obtain ⟨hm, rfl⟩ := parse_data_ok_elim hok
  refine ⟨?_, ?_, by rfl, by decide, by decide⟩
  · intro m hmem
    show m ∈ (find_information_group (analysisText data) _).loose_strings
    exact find_information_group_mem _ _ m hmem
  · rw [pipelineResult_obs, countObs_append, countObs_append, countObs_append,
      countObs_append, countObs_obs2Base data _ (by decide) (by decide),
      countObs_rsid_delta _ _ (by decide) (by decide),
      countObs_blip_delta _ _ (by decide), countObs_img_delta _ _ (by decide)]
    rw [if_pos rfl, countObs_info_delta_obs5]
    omega

/-- C6, witness at scenario 3. -/
theorem C6_witness :
    Obs.obs005 ∈ res3.observations ∧ authorGroup ∈ res3.loose_strings :=
  ⟨(C6_information_group sample3 res3 rfl).2.2.2.1,
   (C6_information_group sample3 res3 rfl).2.2.2.2⟩

/-- C7, counterexample: a falsy (empty) bytearray is a data buffer whose concrete
type is not a byte sequence, yet construction succeeds with an empty result
instead of failing with the TypeError, because `elif data:` skips falsy buffers
before the isinstance check. -/
theorem C7_counterexample :
    init none (some (.pybytearray [])) true (fun _ => []) = .ok emptyResults
    ∧ init none (some (.pybytearray [])) true (fun _ => []) ≠ .error .typeMismatch := by
  have h1 : init none (some (.pybytearray [])) true (fun _ => []) = .ok emptyResults := rfl
  exact ⟨h1, fun h => Except.noConfusion (h1.symm.trans h)⟩

/-- C7, amended: constructing with neither filename nor data fails immediately
with the ValueError; constructing with a NON-EMPTY (truthy) data buffer whose
concrete type is not `bytes` fails with the TypeError; an empty non-bytes buffer
is falsy and is treated like absent data, succeeding with an empty result. -/
theorem C7_constructor_errors (risky : Bool) (readFile : String → List Nat) :
    init none none risky readFile = .error .invalidInput
    ∧ ∀ b : List Nat, b ≠ [] →
        init none (some (.pybytearray b)) risky readFile = .error .typeMismatch := by
  constructor
  · unfold init
    rw [if_pos ⟨rfl, rfl⟩]
  · intro b hb
    unfold init
    rw [if_neg (by simp), if_neg (by simp [fnTruthy])]
    show (if pyTruthy (.pybytearray b) = true then _ else _) = _
    rw [if_pos (by simp [pyTruthy, hb])]
    rfl

/-- C7, witness: invalid construction and a one-byte bytearray. -/
theorem C7_witness :
    init none none true (fun _ => []) = .error .invalidInput
    ∧ init none (some (.pybytearray [7])) true (fun _ => []) = .error .typeMismatch :=
  ⟨(C7_constructor_errors true (fun _ => [])).1,
   (C7_constructor_errors true (fun _ => [])).2 [7] (by decide)⟩

/-- C8: Observation 1 appears in a successful analysis result exactly once when
the input contains at least one byte outside the Python printable set, regardless
of how many such bytes exist, and is absent when every byte is printable. -/
theorem C8_printable_range (data : List Nat) (risky : Bool) (r : Results)
    (hok : parse_data data risky = .ok r) :
    countObs Obs.obs001 r.observations
        = (if data.any (fun b => !printableByte b) then 1 else 0)
    ∧ ((∀ b ∈ data, printableByte b = true) → Obs.obs001 ∉ r.observations) := by
  obtain ⟨hm, rfl⟩ := parse_data_ok_elim hok
  have hcount : countObs Obs.obs001 (pipelineResult data risky).observations
      = (if data.any (fun b => !printableByte b) then 1 else 0) := by
    rw [pipelineResult_obs, countObs_append, countObs_append, countObs_append,
      countObs_append, countObs_rsid_delta _ _ (by decide) (by decide),
      countObs_blip_delta _ _ (by decide), countObs_img_delta _ _ (by decide)]
    have hbase : countObs Obs.obs001 (obs2Base data).observations
        = (if data.any (fun b => !printableByte b) then 1 else 0) := by
      rw [obs2Base_obs, countObs_append]
      by_cases h1 : data.any (fun b => !printableByte b) <;>
        by_cases h2 : ((analysisText data).drop 4).take 2 ≠ versionTag <;>
          simp [h1, h2, countObs]
    rw [hbase]
    have hrisky : countObs Obs.obs001
        (if risky then info_obs_delta (analysisText data) else []) = 0 := by
      cases risky
      · simp [countObs]
      · rw [if_pos rfl]
        exact countObs_info_delta _ _ (by decide)
    rw [hrisky]
    omega
  refine ⟨hcount, fun hall => ?_⟩
  rw [← countObs_eq_zero_iff, hcount]
  have hany : data.any (fun b => !printableByte b) = false := by
    rw [List.any_eq_false]
    intro b hb
    simp [hall b hb]
  simp [hany]

/-- C8, witness: magic-valid input with one unprintable byte (value 1). -/
theorem C8_witness :
    countObs Obs.obs001 res8.observations
        = (if sample8.any (fun b => !printableByte b) then 1 else 0) :=
  (C8_printable_range sample8 true res8 rfl).1

/-- C9: for every input passing magic-byte validation whose characters 4-5
differ from `f1`, analysis completes without an exception, Observation 2 is
present, and the result is exactly the output of running all four extractors
over the decoded text. -/
theorem C9_version_marker (data : List Nat)
    (hmagic : (analysisText data).take 4 = rtfMagic)
    (hver : ((analysisText data).drop 4).take 2 ≠ versionTag) :
    parse_data data true = .ok (pipelineResult data true)
    ∧ Obs.obs002 ∈ (pipelineResult data true).observations
    ∧ pipelineResult data true
        = find_information_group (analysisText data)
            (find_image_sizes (analysisText data)
              (find_blip_tags (analysisText data)
                (find_rsid_tags (analysisText data) (obs2Base data)))) := by
  refine ⟨?_, ?_, rfl⟩
  · unfold parse_data
    rw [if_pos hmagic]
  · rw [pipelineResult_obs]
    apply List.mem_append_left
    apply List.mem_append_left
    apply List.mem_append_left
    apply List.mem_append_left
    rw [obs2Base_obs]
    apply List.mem_append_right
    rw [if_pos hver]
    exact List.mem_singleton.mpr rfl

/-- C9, witness: the document with version marker `x}` instead of `f1`. -/
theorem C9_witness :
    parse_data sample9 true = .ok (pipelineResult sample9 true)
    ∧ Obs.obs002 ∈ (pipelineResult sample9 true).observations :=
  ⟨(C9_version_marker sample9 (by decide) (by decide)).1,
   (C9_version_marker sample9 (by decide) (by decide)).2.1⟩

/-- C10: constructing with no filename and the empty byte string succeeds, raises
nothing, performs no parsing, and exposes empty looseStrings, strictStrings and
observations, even though the empty decoded text does not begin with the magic. -/
theorem C10_empty_data (risky : Bool) (readFile : String → List Nat) :
    init none (some (.pybytes [])) risky readFile = .ok emptyResults
    ∧ emptyResults.loose_strings = []
    ∧ emptyResults.strict_strings = []
    ∧ emptyResults.observations = []
    ∧ (decodeAsciiIgnore []).take 4 ≠ rtfMagic := by
  refine ⟨?_, rfl, rfl, rfl, by decide⟩
  unfold init
  rw [if_neg (by simp), if_neg (by simp [fnTruthy])]
  rfl

end Rtfsig
